import Mathlib

/-!
Shallow embedding of the facility-automation message-routing subsystem
(ERAM / STARS computers) of the vice repository, together with proofs
settling the frozen claims about it.

Conventions of the embedding:
* Go maps with pointer values become functions K -> Option V
  (none = key absent; no code path in scope stores a nil pointer value,
  except where noted).  Go map key sets become List K.
* Go slices become List; the Go builtin clear on a slice zeroes the
  elements but keeps the length, which is modelled by List.replicate of
  the zero-valued element.
* time.Time / time.Duration become Int (nanoseconds); t.Add(d).Before(u)
  becomes t + d < u.
* A Go panic (explicit panic call, nil-pointer dereference, string
  slice out of range) is modelled by an Option String panic field that
  aborts the remaining drain, mirroring unwinding.
* Go for-range over a slice iterates a snapshot of the slice header
  taken once at loop entry; reslicing the variable mid-loop does not
  affect the iteration.  Go map iteration order is unspecified; maps
  that the code iterates are embedded as association lists and iterated
  in list order (one fixed admissible order).
-/

/-- av.Squawk (a 16-bit beacon code, used well below the bound here). -/
abbrev Squawk := Nat

/-- av.FlightRules (only IFR / VFR are relevant to the embedded code). -/
inductive FlightRules where
  | IFR
  | VFR
deriving DecidableEq

/-- The message-type constants of the source.  Plan is the Go constant 0,
and hence the value held by a zero-valued FlightPlanMessage. -/
inductive MessageType where
  | Plan
  | Amendment
  | Cancellation
  | RequestFlightPlan
  | DepartureDM
  | BeaconTerminate
  | InitiateTransfer
  | AcceptRecallTransfer
deriving DecidableEq

/-- Modelled from the spec: av.AdaptationFix metadata (not under src/),
per the adaptation tables mapping coordination-fix name and altitude to a
destination facility and an origin facility.  Only the two facility
fields are read by the embedded code. -/
structure AdaptationFix where
  toFacility : String
  fromFacility : String
deriving DecidableEq

/-- Modelled from the spec: av.AdaptationFixes with its Fix(altitude)
method (not under src/): altitude-banded rules yielding fix metadata;
none models the error return. -/
abbrev AdaptationFixes := String → Option AdaptationFix

/-- The embedded av.FlightPlan fields of STARSFlightPlan that the code in
scope reads (Rules, AircraftType, ECID, Callsign, AssignedSquawk,
DepartureAirport, ArrivalAirport, Altitude, Exit, Route). -/
structure AvFlightPlan where
  rules : FlightRules
  aircraftType : String
  ecid : String
  callsign : String
  assignedSquawk : Squawk
  departureAirport : String
  arrivalAirport : String
  altitude : Int
  exit : String
  route : String
deriving DecidableEq

/-- STARSFlightPlan.  CoordinationTime is flattened to its Time field
(an Int); the fields not read by the embedded code (FlightPlanType, SP1,
SP2, InitialController) are omitted. -/
structure STARSFlightPlan where
  base : AvFlightPlan
  coordinationTime : Int
  coordinationFix : String
  containedFacilities : List String
  altitude : String
deriving DecidableEq

/-- AircraftDataMessage. -/
structure AircraftDataMessage where
  departureLocation : String
  arrivalLocation : String
  numberOfAircraft : Int
  aircraftType : String
  aircraftCategory : String
  equipment : String
deriving DecidableEq

/-- FlightPlanMessage.  Of the embedded TrackInformation only the fields
the handlers read (Identifier, TrackOwner, HandoffController) are kept;
the promoted FlightPlan pointer field is shadowed by the FlightPlan
method in Go and never read through the message. -/
structure FlightPlanMessage where
  sourceID : String
  messageType : MessageType
  flightID : String
  aircraftData : AircraftDataMessage
  bcn : Squawk
  coordinationFix : String
  coordinationTime : Int
  altitude : String
  route : String
  identifier : String
  trackOwner : String
  handoffController : String
deriving DecidableEq

/-- TrackInformation as stored in the computers (fields the code in
scope reads; PointOut, PointOutHistory, RedirectedHandoff, SP1, SP2,
AutoAssociateFP are never touched by the embedded functions). -/
structure TrackInformation where
  identifier : String
  trackOwner : String
  handoffController : String
  flightPlan : Option STARSFlightPlan
deriving DecidableEq

/-- The Event types posted by STARSComputer.SortReceivedMessages. -/
inductive EventType where
  | TransferAccepted
  | TransferRejected
deriving DecidableEq

/-- The Event fields set by STARSComputer.SortReceivedMessages. -/
structure Event where
  type : EventType
  callsign : String
  toController : String
deriving DecidableEq

/-- Destination of an outbound message: a STARS facility mailbox
(ToSTARSFacility) or another ERAM facility inbox (SendMessageToERAM). -/
inductive Dest where
  | stars (facility : String)
  | eram (facility : String)
deriving DecidableEq

/-- Pointwise update of a map-as-function (Go map assignment for
some v, Go delete for none). -/
def mapUpd {K V : Type} [DecidableEq K] (m : K → Option V) (k : K) (v : Option V) :
    K → Option V :=
  fun x => if x = k then v else m x

/-- Go map-key insertion comp.AvailableSquawks[sq] = nil on a pool
embedded as its key list: idempotent insert. -/
def insertSquawk (pool : List Squawk) (sq : Squawk) : List Squawk :=
  if sq ∈ pool then pool else sq :: pool

/-- strings.Contains(s, "VFR"). -/
def containsVFR (s : String) : Bool :=
  decide (List.IsInfix "VFR".data s.data)

/-- strings.TrimPrefix(s, pre). -/
def trimLeading (s pre : String) : String :=
  if pre.isPrefixOf s then s.drop pre.length else s

/-- Modelled from the spec: av.FlightPlan.TypeWithoutSuffix (not under
src/): the aircraft type with its equipment suffix (the part from the
slash on) removed.  Its exact value is irrelevant to every claim. -/
def typeWithoutSuffix (s : String) : String :=
  (s.splitOn "/").headD ""

/-- Two-digit zero padding used when formatting the source-ID time. -/
def pad2 (n : Nat) : String :=
  if n < 10 then "0" ++ toString n else toString n

/-- t.Format of the Go layout 1504Z on a nanosecond timestamp: hours and
minutes of day followed by Z. -/
def timeFormat1504Z (t : Int) : String :=
  pad2 ((t / 60000000000).toNat / 60 % 24) ++ pad2 ((t / 60000000000).toNat % 60) ++ "Z"

/-- formatSourceID. -/
def formatSourceID (id : String) (t : Int) : String :=
  id ++ timeFormat1504Z t

/-- FlightPlanMessage.FlightPlan(): converts the message to a (freshly
allocated, hence never nil) STARS flight plan. -/
def FlightPlanMessage.FlightPlan (s : FlightPlanMessage) : STARSFlightPlan :=
  { base :=
      { rules := if containsVFR s.altitude then FlightRules.VFR else FlightRules.IFR
        aircraftType := s.aircraftData.aircraftType
        ecid := if s.flightID.length > 3 then s.flightID.take 3 else ""
        callsign := if s.flightID.length > 3 then s.flightID.drop 3 else ""
        assignedSquawk := s.bcn
        departureAirport := s.aircraftData.departureLocation
        arrivalAirport := s.aircraftData.arrivalLocation
        altitude := 0
        exit := ""
        route := s.route }
    coordinationTime := s.coordinationTime
    coordinationFix := s.coordinationFix
    containedFacilities := []
    altitude := s.altitude }

/-- STARSFlightPlan.Message(): the outbound message built from a plan
(SourceID and MessageType are filled in by the callers). -/
def STARSFlightPlan.Message (fp : STARSFlightPlan) : FlightPlanMessage :=
  { sourceID := ""
    messageType := MessageType.Plan
    flightID := fp.base.ecid ++ fp.base.callsign
    aircraftData :=
      { departureLocation := fp.base.departureAirport
        arrivalLocation := fp.base.arrivalAirport
        numberOfAircraft := 1
        aircraftType := typeWithoutSuffix fp.base.aircraftType
        aircraftCategory := fp.base.aircraftType
        equipment := trimLeading fp.base.aircraftType (typeWithoutSuffix fp.base.aircraftType) }
    bcn := fp.base.assignedSquawk
    coordinationFix := fp.coordinationFix
    coordinationTime := fp.coordinationTime
    altitude := fp.altitude
    route := fp.base.route
    identifier := ""
    trackOwner := ""
    handoffController := "" }

/-- FlightPlanDepartureMessage: the Plan response built from the embedded
av.FlightPlan after a RequestFlightPlan message. -/
def FlightPlanDepartureMessage (fp : AvFlightPlan) (sendingFacility : String)
    (simTime : Int) : FlightPlanMessage :=
  { sourceID := formatSourceID sendingFacility simTime
    messageType := MessageType.Plan
    flightID := fp.ecid ++ fp.callsign
    aircraftData :=
      { departureLocation := fp.departureAirport
        arrivalLocation := fp.arrivalAirport
        numberOfAircraft := 1
        aircraftType := typeWithoutSuffix fp.aircraftType
        aircraftCategory := fp.aircraftType
        equipment := trimLeading fp.aircraftType (typeWithoutSuffix fp.aircraftType) }
    bcn := fp.assignedSquawk
    coordinationFix := fp.exit
    coordinationTime := 0
    altitude := (if fp.rules = FlightRules.VFR then "VFR/" else "") ++ toString fp.altitude
    route := fp.route
    identifier := ""
    trackOwner := ""
    handoffController := "" }

/-- The zero value of FlightPlanMessage, i.e. what the Go builtin clear
leaves in each slot of a slice of messages.  Its MessageType is the
constant Plan = 0 and its beacon code is 0. -/
def zeroFlightPlanMessage : FlightPlanMessage :=
  { sourceID := ""
    messageType := MessageType.Plan
    flightID := ""
    aircraftData :=
      { departureLocation := ""
        arrivalLocation := ""
        numberOfAircraft := 0
        aircraftType := ""
        aircraftCategory := ""
        equipment := "" }
    bcn := 0
    coordinationFix := ""
    coordinationTime := 0
    altitude := ""
    route := ""
    identifier := ""
    trackOwner := ""
    handoffController := "" }

/-- getValidSquawkCodes: the loop over 0o1001 .. 0o7777 skipping SPCs and
the VFR code 0o1200.  av.SquawkIsSPC lives outside src/, so the SPC set
is a parameter; the pool is the key list of the built Go map. -/
def getValidSquawkCodes (isSPC : Squawk → Bool) : List Squawk :=
  ((List.range (0o7777 - 0o1001 + 1)).map (fun k => (0o1001 + k : Nat))).filter
    (fun i => !isSPC i && i != 0o1200)

/-- getBeaconBankSquawks: the loop over bank*0o100 + 1 .. bank*0o100 + 0o77. -/
def getBeaconBankSquawks (bank : Nat) : List Squawk :=
  (List.range 0o77).map (fun k => (bank * 0o100 + 1 + k : Nat))

/-- CreateSquawk, identical on ERAMComputer (NAS pool) and STARSComputer
(local bank pool): take some key of the AvailableSquawks map and delete
it, or fail with ErrNoMoreAvailableSquawkCodes (none) when the map is
empty.  Go map iteration yields an unspecified key; the embedding fixes
the admissible order in which the pool list holds the keys. -/
def CreateSquawk (pool : List Squawk) : Option Squawk × List Squawk :=
  match pool with
  | [] => (none, [])
  | sq :: rest => (some sq, rest)

/-- STARSComputer (fields the embedded code touches; the inbox references
ERAMInbox / STARSInbox and UnsupportedTracks are not read by
SortReceivedMessages). -/
structure STARSComputer where
  identifier : String
  containedPlans : Squawk → Option STARSFlightPlan
  receivedMessages : List FlightPlanMessage
  trackInformation : String → Option TrackInformation
  availableSquawks : List Squawk

/-- The body of the switch of STARSComputer.SortReceivedMessages for one
message: returns the updated computer and the events posted, in order.
Message types without a case (RequestFlightPlan, DepartureDM,
BeaconTerminate) fall through as no-ops. -/
def STARSComputer.processMessage (comp : STARSComputer) (msg : FlightPlanMessage) :
    STARSComputer × List Event :=
  match msg.messageType with
  | MessageType.Plan =>
      if msg.bcn ≠ 0 then
        ({ comp with containedPlans := mapUpd comp.containedPlans msg.bcn (some msg.FlightPlan) }, [])
      else (comp, [])
  | MessageType.Amendment =>
      ({ comp with containedPlans := mapUpd comp.containedPlans msg.bcn (some msg.FlightPlan) }, [])
  | MessageType.Cancellation =>
      ({ comp with containedPlans := mapUpd comp.containedPlans msg.bcn none }, [])
  | MessageType.InitiateTransfer =>
      match comp.containedPlans msg.bcn with
      | some fp =>
          ({ comp with
              trackInformation := mapUpd comp.trackInformation msg.identifier
                (some { identifier := ""
                        trackOwner := msg.trackOwner
                        handoffController := msg.handoffController
                        flightPlan := some fp })
              containedPlans := mapUpd comp.containedPlans msg.bcn none },
           [{ type := EventType.TransferAccepted
              callsign := msg.identifier
              toController := msg.trackOwner }])
      | none =>
          match comp.trackInformation msg.identifier with
          | some trk =>
              ({ comp with
                  trackInformation := mapUpd comp.trackInformation msg.identifier
                    (some { identifier := ""
                            trackOwner := msg.trackOwner
                            handoffController := msg.handoffController
                            flightPlan := trk.flightPlan })
                  containedPlans := mapUpd comp.containedPlans msg.bcn none },
               [{ type := EventType.TransferAccepted
                  callsign := msg.identifier
                  toController := msg.trackOwner }])
          | none =>
              (comp,
               [{ type := EventType.TransferRejected
                  callsign := msg.identifier
                  toController := msg.trackOwner }])
  | MessageType.AcceptRecallTransfer =>
      match comp.trackInformation msg.identifier with
      | none => (comp, [])
      | some info =>
          if msg.trackOwner ≠ info.trackOwner then
            ({ comp with
                trackInformation := mapUpd comp.trackInformation msg.identifier
                  (some { info with trackOwner := msg.trackOwner, handoffController := "" }) }, [])
          else
            ({ comp with
                trackInformation := mapUpd comp.trackInformation msg.identifier none }, [])
  | _ => (comp, [])

/-- The iteration of STARSComputer.SortReceivedMessages over the batch
snapshot, accumulating the posted events in order. -/
def starsSortGo (comp : STARSComputer) : List FlightPlanMessage → STARSComputer × List Event
  | [] => (comp, [])
  | m :: ms =>
      let r := comp.processMessage m
      let r2 := starsSortGo r.1 ms
      (r2.1, r.2 ++ r2.2)

/-- STARSComputer.SortReceivedMessages: iterate the snapshot of the
mailbox, then clear(comp.ReceivedMessages); the Go builtin clear on a
slice zeroes the elements and keeps the length. -/
def STARSComputer.SortReceivedMessages (comp : STARSComputer) :
    STARSComputer × List Event :=
  let r := starsSortGo comp comp.receivedMessages
  ({ r.1 with
      receivedMessages := List.replicate r.1.receivedMessages.length zeroFlightPlanMessage },
   r.2)

/-- ERAMComputer (fields the embedded code touches).  STARSComputers and
ERAMInboxes are represented by their key sets, since SortMessages only
checks membership before appending to the target mailbox (appends are
returned as a send trace).  fixForRouteAndAltitude and traconToARTCC are
modelled from the spec: av.ERAMAdaptation.FixForRouteAndAltitude derives
a coordination fix from route and altitude via the adaptation lookup,
and av.DB.TRACONs[t].ARTCC is the static TRACON to ARTCC ownership map
(both outside src/). -/
structure ERAMComputer where
  identifier : String
  starsFacilities : List String
  eramFacilities : List String
  receivedMessages : List FlightPlanMessage
  flightPlans : Squawk → Option STARSFlightPlan
  trackInformation : String → Option TrackInformation
  availableSquawks : List Squawk
  adaptation : List (String × AdaptationFixes)
  fixForRouteAndAltitude : String → String → Option String
  traconToARTCC : String → String

/-- ERAMComputer.ToSTARSFacility: append to the named STARS mailbox, or
fail (none, ErrUnknownFacility) when the facility is not owned. -/
def ERAMComputer.ToSTARSFacility (comp : ERAMComputer) (facility : String)
    (msg : FlightPlanMessage) : Option (Dest × FlightPlanMessage) :=
  if facility ∈ comp.starsFacilities then some (Dest.stars facility, msg) else none

/-- ERAMComputer.SendMessageToERAM: append to the named peer ERAM inbox,
or fail (none, ErrUnknownFacility) when the inbox is unknown. -/
def ERAMComputer.SendMessageToERAM (comp : ERAMComputer) (facility : String)
    (msg : FlightPlanMessage) : Option (Dest × FlightPlanMessage) :=
  if facility ∈ comp.eramFacilities then some (Dest.eram facility, msg) else none

/-- ERAMComputer.AdaptationFixForAltitude: CoordinationFixes lookup
followed by the altitude-banded Fix selection. -/
def ERAMComputer.AdaptationFixForAltitude (comp : ERAMComputer) (fix altitude : String) :
    Option AdaptationFix :=
  match List.lookup fix comp.adaptation with
  | none => none
  | some fixes => fixes altitude

/-- Result of processing one message during an ERAM drain: the mutated
computer, the messages appended to other mailboxes (in order), and the
panic raised, if any (a panic aborts the drain). -/
structure ERAMStep where
  comp : ERAMComputer
  sends : List (Dest × FlightPlanMessage)
  panicMsg : Option String

/-- The routing tail of the Plan case of ERAMComputer.SortMessages: if
the adaptation fix for the (possibly derived) coordination fix resolves
to a facility other than self, forward the original message there. -/
def eramPlanRoute (comp : ERAMComputer) (fp : STARSFlightPlan)
    (msg : FlightPlanMessage) : ERAMStep :=
  match comp.AdaptationFixForAltitude fp.coordinationFix fp.altitude with
  | some af =>
      if af.toFacility ≠ comp.identifier then
        { comp := comp, sends := (comp.ToSTARSFacility af.toFacility msg).toList,
          panicMsg := none }
      else { comp := comp, sends := [], panicMsg := none }
  | none => { comp := comp, sends := [], panicMsg := none }

/-- The Plan case of ERAMComputer.SortMessages.  A zero assigned squawk
panics; otherwise the plan is installed under msg.BCN (the stored plan
and the local fp alias the same object, so the later coordination-fix
assignment is visible through the map); an unresolvable coordination fix
is logged and routing is skipped. -/
def eramProcessPlan (comp : ERAMComputer) (msg : FlightPlanMessage) : ERAMStep :=
  let fp := msg.FlightPlan
  if fp.base.assignedSquawk = 0 then
    { comp := comp, sends := [], panicMsg := some "zero squawk" }
  else
    let comp1 := { comp with flightPlans := mapUpd comp.flightPlans msg.bcn (some fp) }
    if fp.coordinationFix = "" then
      match comp1.fixForRouteAndAltitude fp.base.route fp.altitude with
      | none => { comp := comp1, sends := [], panicMsg := none }
      | some cf =>
          let fp2 := { fp with coordinationFix := cf }
          eramPlanRoute
            { comp1 with flightPlans := mapUpd comp1.flightPlans msg.bcn (some fp2) }
            fp2 msg
    else eramPlanRoute comp1 fp msg

/-- The RequestFlightPlan case of ERAMComputer.SortMessages: the facility
is the first three bytes of the source ID (Go panics when the source ID
is shorter); a found plan is answered with a departure message; then the
head of the mailbox is dropped (the reslice to [1:]).  The for-range
iteration of the drain is over a snapshot, so this does not affect which
messages of the batch are processed. -/
def eramProcessRequestFP (comp : ERAMComputer) (simTime : Int)
    (msg : FlightPlanMessage) : ERAMStep :=
  if msg.sourceID.length < 3 then
    { comp := comp, sends := [], panicMsg := some "slice bounds out of range" }
  else
    let facility := msg.sourceID.take 3
    let sends :=
      match comp.flightPlans msg.bcn with
      | some plan =>
          (comp.ToSTARSFacility facility
            (FlightPlanDepartureMessage plan.base comp.identifier simTime)).toList
      | none => []
    { comp := { comp with receivedMessages := comp.receivedMessages.drop 1 },
      sends := sends, panicMsg := none }

/-- State threaded through the loop over the adaptation coordination
fixes in the InitiateTransfer case (the local msg is mutated when its
source ID is re-stamped). -/
structure TransferLoopState where
  trackInformation : String → Option TrackInformation
  msg : FlightPlanMessage
  sends : List (Dest × FlightPlanMessage)
  panicMsg : Option String

/-- One iteration of the loop over comp.Adaptation.CoordinationFixes in
the InitiateTransfer case.  The altitude read dereferences the track
entry and its flight plan without nil guards. -/
def initiateTransferStep (comp : ERAMComputer) (simTime : Int)
    (st : TransferLoopState) (entry : String × AdaptationFixes) : TransferLoopState :=
  if st.panicMsg.isSome then st
  else
    match st.trackInformation st.msg.identifier with
    | none => { st with panicMsg := some "nil dereference" }
    | some info =>
        match info.flightPlan with
        | none => { st with panicMsg := some "nil dereference" }
        | some fp =>
            match entry.2 fp.altitude with
            | none => st
            | some fix =>
                if entry.1 = st.msg.coordinationFix ∧ fix.toFacility ≠ comp.identifier then
                  let m := { st.msg with sourceID := formatSourceID comp.identifier simTime }
                  let snd :=
                    if fix.toFacility.startsWith "Z" then
                      comp.SendMessageToERAM fix.toFacility m
                    else comp.ToSTARSFacility fix.toFacility m
                  { st with msg := m, sends := st.sends ++ snd.toList }
                else if entry.1 = st.msg.coordinationFix ∧ fix.toFacility = comp.identifier then
                  { st with
                      trackInformation := mapUpd st.trackInformation st.msg.identifier
                        (some { identifier := ""
                                trackOwner := st.msg.trackOwner
                                handoffController := st.msg.handoffController
                                flightPlan := comp.flightPlans st.msg.bcn }) }
                else st

/-- The InitiateTransfer case of ERAMComputer.SortMessages: ensure a
track entry exists (created with the plan for msg.BCN, possibly nil),
stamp the message's owner and handoff controller on it, release the
beacon code into the pool, then walk the adaptation coordination fixes
forwarding or finalising as resolved. -/
def eramProcessInitiateTransfer (comp : ERAMComputer) (simTime : Int)
    (msg : FlightPlanMessage) : ERAMStep :=
  let entry0 :=
    match comp.trackInformation msg.identifier with
    | none =>
        { identifier := ""
          trackOwner := ""
          handoffController := ""
          flightPlan := comp.flightPlans msg.bcn : TrackInformation }
    | some info => info
  let entry1 := { entry0 with trackOwner := msg.trackOwner,
                              handoffController := msg.handoffController }
  let ti1 := mapUpd comp.trackInformation msg.identifier (some entry1)
  let pool1 := insertSquawk comp.availableSquawks msg.bcn
  let stF := comp.adaptation.foldl (initiateTransferStep comp simTime)
    { trackInformation := ti1, msg := msg, sends := [], panicMsg := none }
  { comp := { comp with trackInformation := stF.trackInformation,
                        availableSquawks := pool1 },
    sends := stF.sends, panicMsg := stF.panicMsg }

/-- The AcceptRecallTransfer case of ERAMComputer.SortMessages: with the
adaptation fixes of the message's coordination fix in hand, update the
owner (releasing the code on an owner match), then read the track
entry's flight-plan altitude without nil guards and ripple the message
back toward the origin facility when it differs from self. -/
def eramProcessAcceptRecall (comp : ERAMComputer) (msg : FlightPlanMessage) : ERAMStep :=
  match List.lookup msg.coordinationFix comp.adaptation with
  | none => { comp := comp, sends := [], panicMsg := none }
  | some adaptationFixes =>
      let comp1 :=
        match comp.trackInformation msg.identifier with
        | some info =>
            let withPool :=
              if msg.trackOwner = info.trackOwner then
                { comp with availableSquawks := insertSquawk comp.availableSquawks msg.bcn }
              else comp
            { withPool with
                trackInformation := mapUpd withPool.trackInformation msg.identifier
                  (some { info with trackOwner := msg.trackOwner }) }
        | none => comp
      match comp1.trackInformation msg.identifier with
      | none => { comp := comp1, sends := [], panicMsg := some "nil dereference" }
      | some info2 =>
          match info2.flightPlan with
          | none => { comp := comp1, sends := [], panicMsg := some "nil dereference" }
          | some fp =>
              match adaptationFixes fp.altitude with
              | none => { comp := comp1, sends := [], panicMsg := none }
              | some adaptationFix =>
                  if adaptationFix.fromFacility ≠ comp.identifier then
                    { comp := comp1,
                      sends := (comp1.SendMessageToERAM adaptationFix.fromFacility msg).toList,
                      panicMsg := none }
                  else { comp := comp1, sends := [], panicMsg := none }

/-- The switch of ERAMComputer.SortMessages for one message.  Message
types without a case (Amendment, Cancellation) and the empty cases
DepartureDM and BeaconTerminate are no-ops. -/
def ERAMComputer.processMessage (comp : ERAMComputer) (simTime : Int)
    (msg : FlightPlanMessage) : ERAMStep :=
  match msg.messageType with
  | MessageType.Plan => eramProcessPlan comp msg
  | MessageType.RequestFlightPlan => eramProcessRequestFP comp simTime msg
  | MessageType.InitiateTransfer => eramProcessInitiateTransfer comp simTime msg
  | MessageType.AcceptRecallTransfer => eramProcessAcceptRecall comp msg
  | _ => { comp := comp, sends := [], panicMsg := none }

/-- Result of a whole ERAM drain: the computer, the batch messages whose
handler ran to completion (in order), all sends, and the panic that
aborted the drain, if any. -/
structure ERAMDrain where
  comp : ERAMComputer
  processed : List FlightPlanMessage
  sends : List (Dest × FlightPlanMessage)
  panicMsg : Option String

/-- The iteration of ERAMComputer.SortMessages over the batch snapshot;
a panic aborts the remaining messages. -/
def eramSortGo (comp : ERAMComputer) (simTime : Int) :
    List FlightPlanMessage → ERAMDrain
  | [] => { comp := comp, processed := [], sends := [], panicMsg := none }
  | m :: ms =>
      let st := comp.processMessage simTime m
      match st.panicMsg with
      | some p =>
          { comp := st.comp, processed := [], sends := st.sends, panicMsg := some p }
      | none =>
          let r := eramSortGo st.comp simTime ms
          { comp := r.comp, processed := m :: r.processed,
            sends := st.sends ++ r.sends, panicMsg := r.panicMsg }

/-- ERAMComputer.SortMessages: iterate the snapshot of the mailbox; when
no panic unwinds, finish with clear(*comp.ReceivedMessages), which
zeroes the (possibly resliced) mailbox elements and keeps the length. -/
def ERAMComputer.SortMessages (comp : ERAMComputer) (simTime : Int) : ERAMDrain :=
  let r := eramSortGo comp simTime comp.receivedMessages
  match r.panicMsg with
  | some _ => r
  | none =>
      { r with comp :=
          { r.comp with receivedMessages :=
              List.replicate r.comp.receivedMessages.length zeroFlightPlanMessage } }

/-- TransmitFPMessageTime = 30 * time.Minute, in nanoseconds. -/
def TransmitFPMessageTime : Int := 30 * 60 * 1000000000

/-- ERAMComputer.SendFlightPlan on one plan: build the Plan message, fail
without mutation when the coordination fix or its altitude band does not
resolve, otherwise transmit to the tracon argument (falling back to the
owning ARTCC inbox when the tracon is not an owned STARS facility) and
append the resolved destination facility to the plan's
ContainedFacilities distribution record.  The plan is held by pointer in
the computer's tables, so the returned plan replaces it there. -/
def ERAMComputer.SendFlightPlan (comp : ERAMComputer) (fp : STARSFlightPlan)
    (tracon : String) (simTime : Int) :
    STARSFlightPlan × List (Dest × FlightPlanMessage) :=
  let msg := { fp.Message with messageType := MessageType.Plan,
                               sourceID := formatSourceID comp.identifier simTime }
  match List.lookup fp.coordinationFix comp.adaptation with
  | none => (fp, [])
  | some coordFix =>
      match coordFix fp.altitude with
      | none => (fp, [])
      | some adaptFix =>
          let sends :=
            ((comp.ToSTARSFacility tracon msg).or
              (comp.SendMessageToERAM (comp.traconToARTCC tracon) msg)).toList
          ({ fp with containedFacilities := fp.containedFacilities ++ [adaptFix.toFacility] },
           sends)

/-- The sendPlanIfReady closure of ERAMComputer.SendFlightPlans, applied
by that function to every plan held in TrackInformation and FlightPlans:
nothing happens while simTime + TransmitFPMessageTime is before the
plan's coordination time; an unresolvable coordination fix or altitude
is logged; a plan whose distribution record already contains the
resolved destination facility is skipped; otherwise SendFlightPlan. -/
def ERAMComputer.sendPlanIfReady (comp : ERAMComputer) (tracon : String)
    (simTime : Int) (fp : STARSFlightPlan) :
    STARSFlightPlan × List (Dest × FlightPlanMessage) :=
  if simTime + TransmitFPMessageTime < fp.coordinationTime then (fp, [])
  else
    match List.lookup fp.coordinationFix comp.adaptation with
    | none => (fp, [])
    | some coordFix =>
        match coordFix fp.altitude with
        | none => (fp, [])
        | some adaptFix =>
            if adaptFix.toFacility ∈ fp.containedFacilities then (fp, [])
            else comp.SendFlightPlan fp tracon simTime

/-- Repeated ticks of the lookahead push for one plan: the evolution of
the plan under sendPlanIfReady at each tick time, with every message
transmitted along the way. -/
def ERAMComputer.runLookaheadTicks (comp : ERAMComputer) (tracon : String) :
    List Int → STARSFlightPlan → STARSFlightPlan × List (Dest × FlightPlanMessage)
  | [], fp => (fp, [])
  | t :: ts, fp =>
      let r := comp.sendPlanIfReady tracon t fp
      let r2 := comp.runLookaheadTicks tracon ts r.1
      (r2.1, r.2 ++ r2.2)

/-- The two-stage adaptation resolution both SendFlightPlans and
SendFlightPlan perform on a plan: coordination-fix lookup, then the
altitude-banded Fix selection. -/
def resolveFix (comp : ERAMComputer) (fp : STARSFlightPlan) : Option AdaptationFix :=
  match List.lookup fp.coordinationFix comp.adaptation with
  | none => none
  | some coordFix => coordFix fp.altitude

/-- A sample flight plan used by concrete instantiations below. -/
def fpC2 : STARSFlightPlan :=
  { base :=
      { rules := FlightRules.IFR
        aircraftType := "B738"
        ecid := "1AB"
        callsign := "DAL123"
        assignedSquawk := 0o2101
        departureAirport := "KATL"
        arrivalAirport := "KMCO"
        altitude := 350
        exit := ""
        route := "DCT" }
    coordinationTime := 0
    coordinationFix := "FIXA"
    containedFacilities := []
    altitude := "350" }

/-- A STARS computer holding fpC2 under beacon 0o2101 and no tracks. -/
def compC2 : STARSComputer :=
  { identifier := "A80"
    containedPlans := fun sq => if sq = 0o2101 then some fpC2 else none
    receivedMessages := []
    trackInformation := fun _ => none
    availableSquawks := [] }

/-- An InitiateTransfer message for beacon 0o2101 / identifier DAL123. -/
def msgC2 : FlightPlanMessage :=
  { zeroFlightPlanMessage with
      messageType := MessageType.InitiateTransfer
      bcn := 0o2101
      identifier := "DAL123"
      trackOwner := "A80_B"
      handoffController := "A80_C" }

/-- A track entry owned by A80_A with a pending handoff to A80_B. -/
def infoC3 : TrackInformation :=
  { identifier := "DAL123"
    trackOwner := "A80_A"
    handoffController := "A80_B"
    flightPlan := some fpC2 }

/-- A STARS computer holding the track entry infoC3 under DAL123. -/
def compC3 : STARSComputer :=
  { identifier := "A80"
    containedPlans := fun _ => none
    receivedMessages := []
    trackInformation := fun id => if id = "DAL123" then some infoC3 else none
    availableSquawks := [] }

/-- An AcceptRecallTransfer whose owner differs from the stored owner. -/
def msgC3accept : FlightPlanMessage :=
  { zeroFlightPlanMessage with
      messageType := MessageType.AcceptRecallTransfer
      bcn := 0o2101
      identifier := "DAL123"
      trackOwner := "A80_B" }

/-- An AcceptRecallTransfer whose owner equals the stored owner. -/
def msgC3recall : FlightPlanMessage :=
  { zeroFlightPlanMessage with
      messageType := MessageType.AcceptRecallTransfer
      bcn := 0o2101
      identifier := "DAL123"
      trackOwner := "A80_A" }

/-- An empty STARS computer. -/
def compC9 : STARSComputer :=
  { identifier := "A80"
    containedPlans := fun _ => none
    receivedMessages := []
    trackInformation := fun _ => none
    availableSquawks := [] }

/-- A Plan message whose beacon code is 0. -/
def msgC9plan : FlightPlanMessage :=
  { zeroFlightPlanMessage with messageType := MessageType.Plan, bcn := 0, altitude := "350" }

/-- An Amendment message whose beacon code is 0. -/
def msgC9amend : FlightPlanMessage :=
  { zeroFlightPlanMessage with messageType := MessageType.Amendment, bcn := 0, altitude := "350" }

/-- A DepartureDM message (a no-op for both computers). -/
def msgC4 : FlightPlanMessage :=
  { zeroFlightPlanMessage with messageType := MessageType.DepartureDM, sourceID := "A80" }

/-- A STARS computer whose mailbox holds exactly one no-op message. -/
def starsC4 : STARSComputer :=
  { identifier := "A80"
    containedPlans := fun _ => none
    receivedMessages := [msgC4]
    trackInformation := fun _ => none
    availableSquawks := [] }

/-- An ERAM computer whose mailbox holds exactly one no-op message. -/
def eramC4 : ERAMComputer :=
  { identifier := "ZTL"
    starsFacilities := ["A80"]
    eramFacilities := []
    receivedMessages := [msgC4]
    flightPlans := fun _ => none
    trackInformation := fun _ => none
    availableSquawks := []
    adaptation := []
    fixForRouteAndAltitude := fun _ _ => none
    traconToARTCC := fun _ => "ZTL" }

/-- A Plan message with beacon code 0 (the batch-aborting panic input). -/
def msgC5plan0 : FlightPlanMessage :=
  { zeroFlightPlanMessage with messageType := MessageType.Plan, bcn := 0, sourceID := "ZNY" }

/-- A DepartureDM message distinct from msgC5plan0. -/
def msgC5dep : FlightPlanMessage :=
  { zeroFlightPlanMessage with messageType := MessageType.DepartureDM, sourceID := "ZNY" }

/-- An ERAM computer whose mailbox holds a zero-squawk Plan message
followed by a no-op message. -/
def eramC5 : ERAMComputer :=
  { eramC4 with receivedMessages := [msgC5plan0, msgC5dep] }

/-- An ERAM computer whose mailbox holds two no-op messages. -/
def eramC5w : ERAMComputer :=
  { eramC4 with receivedMessages := [msgC5dep, msgC4] }

/-- An ERAM computer whose mailbox holds only the zero-squawk Plan. -/
def eramC6 : ERAMComputer :=
  { eramC4 with receivedMessages := [msgC5plan0] }

/-- A Plan message with a nonzero beacon code and an empty coordination
fix that fixForRouteAndAltitude cannot resolve (the logged case). -/
def msgC6w : FlightPlanMessage :=
  { zeroFlightPlanMessage with
      messageType := MessageType.Plan
      bcn := 0o2101
      route := "DCT"
      altitude := "350" }

/-- The adaptation-fix metadata used by the lookahead instantiation. -/
def afC7 : AdaptationFix :=
  { toFacility := "A80", fromFacility := "ZTL" }

/-- Altitude-banded rules that always resolve to afC7. -/
def fixesC7 : AdaptationFixes := fun _ => some afC7

/-- An ERAM computer whose adaptation resolves FIXA at any altitude. -/
def eramC7 : ERAMComputer :=
  { eramC4 with receivedMessages := [], adaptation := [("FIXA", fixesC7)] }

/-- A plan at coordination fix FIXA whose coordination time is far in
the future relative to tick time 0. -/
def fpC7 : STARSFlightPlan :=
  { fpC2 with coordinationTime := 10000000000000 }

/-- Altitude-banded rules that never resolve (the Fix error case). -/
def fixesC10 : AdaptationFixes := fun _ => none

/-- An ERAM computer holding track entry infoC3 (whose flight plan is
present) under DAL123, with FIXA adapted. -/
def eramC10a : ERAMComputer :=
  { eramC4 with
      receivedMessages := []
      trackInformation := fun id => if id = "DAL123" then some infoC3 else none
      adaptation := [("FIXA", fixesC10)] }

/-- An ERAM computer with FIXA adapted and no track entries. -/
def eramC10b : ERAMComputer :=
  { eramC4 with receivedMessages := [], adaptation := [("FIXA", fixesC10)] }

/-- An AcceptRecallTransfer message at coordination fix FIXA. -/
def msgC10 : FlightPlanMessage :=
  { zeroFlightPlanMessage with
      messageType := MessageType.AcceptRecallTransfer
      bcn := 0o2101
      identifier := "DAL123"
      trackOwner := "A80_A"
      coordinationFix := "FIXA" }

/-- Reading a map-as-function at the updated key yields the new value. -/
theorem mapUpd_self {K V : Type} [DecidableEq K] (m : K → Option V) (k : K)
    (v : Option V) : mapUpd m k v k = v := by
  simp [mapUpd]

/-- A drain iteration that does not panic runs the handler of every
message of the snapshot exactly once, in order. -/
theorem eramSortGo_processed_of_no_panic (simTime : Int) :
    ∀ (msgs : List FlightPlanMessage) (comp : ERAMComputer),
      (eramSortGo comp simTime msgs).panicMsg = none →
      (eramSortGo comp simTime msgs).processed = msgs := by
  intro msgs
  induction msgs with
  | nil => intro comp _; rfl
  | cons m ms ih =>
      intro comp h
      unfold eramSortGo at h ⊢
      cases hs : (comp.processMessage simTime m).panicMsg with
      | some p => simp only [hs] at h; exact absurd h (by simp)
      | none =>
          simp only [hs] at h ⊢
          rw [ih _ h]

/-- A plan whose resolved destination facility is already in its
distribution record is never re-sent (also covers unresolvable plans). -/
theorem sendPlanIfReady_blocked (comp : ERAMComputer) (tracon : String) (t : Int)
    (fp : STARSFlightPlan)
    (h : ∀ af, resolveFix comp fp = some af → af.toFacility ∈ fp.containedFacilities) :
    comp.sendPlanIfReady tracon t fp = (fp, []) := by
  unfold ERAMComputer.sendPlanIfReady
  split
  · rfl
  · cases hl : List.lookup fp.coordinationFix comp.adaptation with
    | none => rfl
    | some coordFix =>
        cases ha : coordFix fp.altitude with
        | none => simp only [ha]
        | some af =>
            have hmem := h af (by simp [resolveFix, hl, ha])
            simp only [ha, hmem, if_pos]

/-- Once blocked, the plan stays blocked and silent for any sequence of
further ticks. -/
theorem runLookaheadTicks_blocked (comp : ERAMComputer) (tracon : String)
    (ts : List Int) (fp : STARSFlightPlan)
    (h : ∀ af, resolveFix comp fp = some af → af.toFacility ∈ fp.containedFacilities) :
    comp.runLookaheadTicks tracon ts fp = (fp, []) := by
  induction ts with
  | nil => rfl
  | cons t ts ih =>
      unfold ERAMComputer.runLookaheadTicks
      rw [sendPlanIfReady_blocked comp tracon t fp h]
      simpa using ih

/-- One tick on one plan either leaves it unchanged and sends nothing,
or resolves an adaptation fix, appends its destination facility to the
distribution record, and sends at most one message. -/
theorem sendPlanIfReady_cases (comp : ERAMComputer) (tracon : String) (t : Int)
    (fp : STARSFlightPlan) :
    comp.sendPlanIfReady tracon t fp = (fp, [])
    ∨ ∃ af, resolveFix comp fp = some af
        ∧ (comp.sendPlanIfReady tracon t fp).1 =
            { fp with containedFacilities := fp.containedFacilities ++ [af.toFacility] }
        ∧ (comp.sendPlanIfReady tracon t fp).2.length ≤ 1 := by
  unfold ERAMComputer.sendPlanIfReady
  split
  · exact Or.inl rfl
  · cases hl : List.lookup fp.coordinationFix comp.adaptation with
    | none => exact Or.inl rfl
    | some coordFix =>
        cases ha : coordFix fp.altitude with
        | none => simp only [ha]; exact Or.inl trivial
        | some af =>
            simp only [ha]
            by_cases hmem : af.toFacility ∈ fp.containedFacilities
            · simp only [hmem, if_pos]
              exact Or.inl trivial
            · rw [if_neg hmem]
              refine Or.inr ⟨af, by simp [resolveFix, hl, ha], ?_, ?_⟩
              · unfold ERAMComputer.SendFlightPlan
                simp only [hl, ha]
              · unfold ERAMComputer.SendFlightPlan
                simp only [hl, ha]
                cases ((comp.ToSTARSFacility tracon _).or
                    (comp.SendMessageToERAM (comp.traconToARTCC tracon) _)) <;> simp

/-- Across any sequence of ticks, one plan is transmitted at most once:
the first transmission records the resolved destination facility in the
distribution record, which blocks every later tick. -/
theorem runLookaheadTicks_sends_le_one (comp : ERAMComputer) (tracon : String) :
    ∀ (ts : List Int) (fp : STARSFlightPlan),
      (comp.runLookaheadTicks tracon ts fp).2.length ≤ 1 := by
  intro ts
  induction ts with
  | nil => intro fp; simp [ERAMComputer.runLookaheadTicks]
  | cons t ts ih =>
      intro fp
      unfold ERAMComputer.runLookaheadTicks
      rcases sendPlanIfReady_cases comp tracon t fp with heq | ⟨af, hres, h1, hlen⟩
      · simp only [heq]
        simpa using ih fp
      · have hblocked : ∀ af2, resolveFix comp (comp.sendPlanIfReady tracon t fp).1 = some af2 →
            af2.toFacility ∈ (comp.sendPlanIfReady tracon t fp).1.containedFacilities := by
          rw [h1]
          intro af2 h2
          have h2fp : resolveFix comp fp = some af2 := h2
          rw [hres] at h2fp
          cases h2fp
          simp
        have hrest := runLookaheadTicks_blocked comp tracon ts _ hblocked
        simp only [hrest]
        simpa using hlen

/-- C1: CreateSquawk (identical on the ERAM NAS pool and the STARS local
bank pool) returns a code that was in AvailableSquawks and removes it
from the pool, fails with the pool-exhausted error exactly when the pool
is empty, and two consecutive calls with no intervening release never
return the same code (the pool, being a Go map key set, has no
duplicates). -/
theorem createSquawk_spec (pool : List Squawk) (hnd : pool.Nodup) :
    ((CreateSquawk pool).1 = none ↔ pool = [])
    ∧ (∀ sq p1, CreateSquawk pool = (some sq, p1) →
        sq ∈ pool ∧ p1 = pool.erase sq ∧ sq ∉ p1)
    ∧ (∀ sq1 p1 sq2 p2, CreateSquawk pool = (some sq1, p1) →
        CreateSquawk p1 = (some sq2, p2) → sq1 ≠ sq2) := by
  cases pool with
  | nil =>
      refine ⟨by simp [CreateSquawk], ?_, ?_⟩
      · intro sq p1 h
        simp [CreateSquawk] at h
      · intro sq1 p1 sq2 p2 h1 _
        simp [CreateSquawk] at h1
  | cons a rest =>
      have ha : a ∉ rest := (List.nodup_cons.mp hnd).1
      refine ⟨by simp [CreateSquawk], ?_, ?_⟩
      · intro sq p1 h
        simp only [CreateSquawk, Prod.mk.injEq, Option.some.injEq] at h
        obtain ⟨rfl, rfl⟩ := h
        exact ⟨List.mem_cons_self a rest, by simp [List.erase_cons_head], ha⟩
      · intro sq1 p1 sq2 p2 h1 h2
        simp only [CreateSquawk, Prod.mk.injEq, Option.some.injEq] at h1
        obtain ⟨rfl, rfl⟩ := h1
        cases rest with
        | nil => simp [CreateSquawk] at h2
        | cons b rest2 =>
            simp only [CreateSquawk, Prod.mk.injEq, Option.some.injEq] at h2
            obtain ⟨hb, -⟩ := h2
            intro heq
            apply ha
            rw [heq, ← hb]
            exact List.mem_cons_self b rest2

/-- Witness for C1 at the pool with codes 0o1001 and 0o1002. -/
theorem createSquawk_spec_witness :
    ([0o1001, 0o1002] : List Squawk).Nodup ∧
    (((CreateSquawk [0o1001, 0o1002]).1 = none ↔ ([0o1001, 0o1002] : List Squawk) = [])
    ∧ (∀ sq p1, CreateSquawk [0o1001, 0o1002] = (some sq, p1) →
        sq ∈ ([0o1001, 0o1002] : List Squawk) ∧ p1 = ([0o1001, 0o1002] : List Squawk).erase sq ∧ sq ∉ p1)
    ∧ (∀ sq1 p1 sq2 p2, CreateSquawk [0o1001, 0o1002] = (some sq1, p1) →
        CreateSquawk p1 = (some sq2, p2) → sq1 ≠ sq2)) :=
  ⟨by decide, createSquawk_spec [0o1001, 0o1002] (by decide)⟩

/-- C8 (amended): at construction the ERAM NAS pool holds exactly the
codes 0o1001 through 0o7777 that are neither special-purpose codes nor
the VFR code 0o1200, for any SPC set; and each STARS local-bank pool for
bank number b holds exactly the contiguous 63-code range b*0o100 + 1
through b*0o100 + 0o77 (the code b*0o100 itself is excluded, so the
bank is 63 codes, not 64). -/
theorem squawkPool_construction_spec :
    (∀ (isSPC : Squawk → Bool) (sq : Nat),
        sq ∈ getValidSquawkCodes isSPC ↔
          (0o1001 ≤ sq ∧ sq ≤ 0o7777 ∧ isSPC sq = false ∧ sq ≠ 0o1200))
    ∧ (∀ (bank : Nat) (c : Nat),
        c ∈ getBeaconBankSquawks bank ↔
          (bank * 0o100 + 1 ≤ c ∧ c ≤ bank * 0o100 + 0o77)) := by
  constructor
  · intro isSPC sq
    simp only [getValidSquawkCodes, List.mem_filter, List.mem_map, List.mem_range,
      Bool.and_eq_true, Bool.not_eq_true', bne_iff_ne, ne_eq]
    constructor
    · rintro ⟨⟨k, hk, rfl⟩, hspc, hvfr⟩
      refine ⟨?_, ?_, hspc, hvfr⟩
      · show (0o1001 : Nat) ≤ 0o1001 + k
        omega
      · show (0o1001 : Nat) + k ≤ 0o7777
        omega
    · rintro ⟨h1, h2, hspc, hvfr⟩
      refine ⟨⟨sq - 0o1001, ?_, ?_⟩, hspc, hvfr⟩
      · omega
      · show (0o1001 : Nat) + (sq - 0o1001) = sq
        omega
  · intro bank c
    simp only [getBeaconBankSquawks, List.mem_map, List.mem_range]
    constructor
    · rintro ⟨k, hk, rfl⟩
      constructor
      · show bank * 0o100 + 1 ≤ bank * 0o100 + 1 + k
        omega
      · show bank * 0o100 + 1 + k ≤ bank * 0o100 + 0o77
        omega
    · rintro ⟨h1, h2⟩
      refine ⟨c - (bank * 0o100 + 1), ?_, ?_⟩
      · omega
      · show bank * 0o100 + 1 + (c - (bank * 0o100 + 1)) = c
        omega

/-- Counterexample for C8 as stated: the bank-1 local pool has only 63
codes, so it cannot contain any contiguous 64-code range; in particular
the bank's own code 0o100 is missing from it. -/
theorem beaconBank_is_63_codes :
    (getBeaconBankSquawks 1).length = 63
    ∧ (0o100 : Squawk) ∉ getBeaconBankSquawks 1
    ∧ (0o140 : Squawk) ∈ getBeaconBankSquawks 1 := by
  refine ⟨by decide, by decide, by decide⟩

/-- C2: a STARS computer processing an InitiateTransfer message posts a
transfer-rejected event and leaves its state untouched when neither a
flight plan for the beacon code nor a track entry for the identifier
exists; when a flight plan for the beacon code exists it posts a
transfer-accepted event, removes the plan from ContainedPlans, and
installs a track entry under the identifier carrying the message's
owner, its handoff controller, and that plan. -/
theorem starsInitiateTransfer_spec (comp : STARSComputer) (msg : FlightPlanMessage)
    (hmt : msg.messageType = MessageType.InitiateTransfer) :
    (comp.containedPlans msg.bcn = none → comp.trackInformation msg.identifier = none →
      comp.processMessage msg =
        (comp, [{ type := EventType.TransferRejected, callsign := msg.identifier,
                  toController := msg.trackOwner }]))
    ∧ (∀ fp, comp.containedPlans msg.bcn = some fp →
        ((comp.processMessage msg).1.containedPlans msg.bcn = none
         ∧ (comp.processMessage msg).1.trackInformation msg.identifier =
             some { identifier := "", trackOwner := msg.trackOwner,
                    handoffController := msg.handoffController, flightPlan := some fp }
         ∧ (comp.processMessage msg).2 =
             [{ type := EventType.TransferAccepted, callsign := msg.identifier,
                toController := msg.trackOwner }])) := by
  constructor
  · intro h1 h2
    simp [STARSComputer.processMessage, hmt, h1, h2]
  · intro fp h1
    simp [STARSComputer.processMessage, hmt, h1, mapUpd_self]

/-- Witness for C2 on a computer holding the plan fpC2 under 0o2101. -/
theorem starsInitiateTransfer_witness :
    msgC2.messageType = MessageType.InitiateTransfer
    ∧ compC2.containedPlans msgC2.bcn = some fpC2
    ∧ ((compC2.processMessage msgC2).1.containedPlans msgC2.bcn = none
       ∧ (compC2.processMessage msgC2).1.trackInformation msgC2.identifier =
           some { identifier := "", trackOwner := msgC2.trackOwner,
                  handoffController := msgC2.handoffController, flightPlan := some fpC2 }
       ∧ (compC2.processMessage msgC2).2 =
           [{ type := EventType.TransferAccepted, callsign := msgC2.identifier,
              toController := msgC2.trackOwner }]) :=
  ⟨rfl, rfl, (starsInitiateTransfer_spec compC2 msgC2 rfl).2 fpC2 rfl⟩

/-- C3: a STARS computer processing an AcceptRecallTransfer message does
nothing when no track entry exists for the identifier; when an entry
exists and the message's track owner differs from the stored owner it
adopts the new owner and clears the handoff controller (accept); when
the owners match it deletes the entry (recall). -/
theorem starsAcceptRecall_spec (comp : STARSComputer) (msg : FlightPlanMessage)
    (hmt : msg.messageType = MessageType.AcceptRecallTransfer) :
    (comp.trackInformation msg.identifier = none →
      comp.processMessage msg = (comp, []))
    ∧ (∀ info, comp.trackInformation msg.identifier = some info →
        (msg.trackOwner ≠ info.trackOwner →
          comp.processMessage msg =
            ({ comp with trackInformation := (mapUpd comp.trackInformation msg.identifier
                 (some { info with trackOwner := msg.trackOwner,
                                   handoffController := "" })) }, []))
        ∧ (msg.trackOwner = info.trackOwner →
          comp.processMessage msg =
            ({ comp with trackInformation :=
                 (mapUpd comp.trackInformation msg.identifier none) }, [])
          ∧ (comp.processMessage msg).1.trackInformation msg.identifier = none)) := by
  constructor
  · intro h1
    simp [STARSComputer.processMessage, hmt, h1]
  · intro info h1
    constructor
    · intro hne
      simp [STARSComputer.processMessage, hmt, h1, hne]
    · intro heq
      refine ⟨by simp [STARSComputer.processMessage, hmt, h1, heq], ?_⟩
      simp [STARSComputer.processMessage, hmt, h1, heq, mapUpd_self]

/-- Witness for C3: both branches from the identical starting track
state compC3 (entry infoC3 owned by A80_A). -/
theorem starsAcceptRecall_witness :
    msgC3accept.messageType = MessageType.AcceptRecallTransfer
    ∧ msgC3recall.messageType = MessageType.AcceptRecallTransfer
    ∧ compC3.trackInformation msgC3accept.identifier = some infoC3
    ∧ msgC3accept.trackOwner ≠ infoC3.trackOwner
    ∧ msgC3recall.trackOwner = infoC3.trackOwner
    ∧ compC3.processMessage msgC3accept =
        ({ compC3 with trackInformation := (mapUpd compC3.trackInformation msgC3accept.identifier
             (some { infoC3 with trackOwner := msgC3accept.trackOwner,
                                 handoffController := "" })) }, [])
    ∧ (compC3.processMessage msgC3recall).1.trackInformation msgC3recall.identifier = none :=
  ⟨rfl, rfl, rfl, by decide, rfl,
   ((starsAcceptRecall_spec compC3 msgC3accept rfl).2 infoC3 rfl).1 (by decide),
   (((starsAcceptRecall_spec compC3 msgC3recall rfl).2 infoC3 rfl).2 rfl).2⟩

/-- C9: a STARS computer ignores a Plan message whose beacon code is 0
(no plan installed, no event), installs a Plan message's plan under its
beacon code when the code is non-zero, yet installs an Amendment
message's plan even at beacon code 0. -/
theorem starsPlanZeroBeacon_spec (comp : STARSComputer) (msg : FlightPlanMessage) :
    (msg.messageType = MessageType.Plan →
      (msg.bcn = 0 → comp.processMessage msg = (comp, []))
      ∧ (msg.bcn ≠ 0 →
          (comp.processMessage msg).1.containedPlans msg.bcn = some msg.FlightPlan))
    ∧ (msg.messageType = MessageType.Amendment →
        (comp.processMessage msg).1.containedPlans msg.bcn = some msg.FlightPlan) := by
  constructor
  · intro hmt
    constructor
    · intro hz
      simp [STARSComputer.processMessage, hmt, hz]
    · intro hnz
      simp [STARSComputer.processMessage, hmt, hnz, mapUpd_self]
  · intro hmt
    simp [STARSComputer.processMessage, hmt, mapUpd_self]

/-- Witness for C9: a zero-beacon Plan message is dropped while a
zero-beacon Amendment message is installed under code 0. -/
theorem starsPlanZeroBeacon_witness :
    msgC9plan.messageType = MessageType.Plan ∧ msgC9plan.bcn = 0
    ∧ msgC9amend.messageType = MessageType.Amendment ∧ msgC9amend.bcn = 0
    ∧ compC9.processMessage msgC9plan = (compC9, [])
    ∧ (compC9.processMessage msgC9amend).1.containedPlans msgC9amend.bcn =
        some msgC9amend.FlightPlan :=
  ⟨rfl, rfl, rfl, rfl,
   ((starsPlanZeroBeacon_spec compC9 msgC9plan).1 rfl).1 rfl,
   (starsPlanZeroBeacon_spec compC9 msgC9amend).2 rfl⟩

/-- C4 (code bug): draining a mailbox does not leave it empty.  The Go
builtin clear on a slice zeroes the elements but keeps the length, so
after one drain of a one-message mailbox the mailbox still holds one
zero-valued message, whose MessageType is the constant Plan with beacon
code 0; a later ERAM drain processes that residue and panics with
"zero squawk". -/
theorem drainLeavesZeroedMailbox :
    starsC4.SortReceivedMessages.1.receivedMessages = [zeroFlightPlanMessage]
    ∧ starsC4.SortReceivedMessages.1.receivedMessages ≠ []
    ∧ zeroFlightPlanMessage.messageType = MessageType.Plan
    ∧ (eramC4.SortMessages 0).panicMsg = none
    ∧ (eramC4.SortMessages 0).comp.receivedMessages = [zeroFlightPlanMessage]
    ∧ ((eramC4.SortMessages 0).comp.SortMessages 0).panicMsg = some "zero squawk" := by
  refine ⟨by decide, by decide, rfl, by decide, by decide, by decide⟩

/-- Counterexample for C5 as stated: when a zero-squawk Plan message
panics mid-batch, the following message of the batch is present in the
mailbox at drain start yet is never processed. -/
theorem eramDrainSkipsAfterPanic :
    msgC5dep ∈ eramC5.receivedMessages
    ∧ msgC5dep ∉ (eramC5.SortMessages 0).processed := by
  refine ⟨by decide, by decide⟩

/-- C5 (amended): provided no message of the batch raises a panic (so
the drain completes), every message present in the mailbox at drain
start is processed exactly once, in original arrival order — the
iteration is over a snapshot, so the queue-head removal a
RequestFlightPlan handler performs shrinks the mailbox, never the batch
being iterated. -/
theorem eramDrainProcessesSnapshot (comp : ERAMComputer) (simTime : Int)
    (h : (comp.SortMessages simTime).panicMsg = none) :
    (comp.SortMessages simTime).processed = comp.receivedMessages := by
  unfold ERAMComputer.SortMessages at h ⊢
  cases hp : (eramSortGo comp simTime comp.receivedMessages).panicMsg with
  | some p =>
      simp only [hp] at h
      exact absurd h (by simp)
  | none =>
      simp only [hp]
      exact eramSortGo_processed_of_no_panic simTime comp.receivedMessages comp hp

/-- Witness for the amended C5 on a two-message mailbox whose drain
completes without panic. -/
theorem eramDrainProcessesSnapshot_witness :
    (eramC5w.SortMessages 0).panicMsg = none
    ∧ (eramC5w.SortMessages 0).processed = eramC5w.receivedMessages :=
  ⟨by decide, eramDrainProcessesSnapshot eramC5w 0 (by decide)⟩

/-- Counterexample for C6 as stated: processing a Plan message whose
assigned squawk is 0 raises a fatal condition (the panic "zero squawk")
rather than a typed or logged failure. -/
theorem eramPlanZeroSquawkPanics :
    (eramC6.SortMessages 0).panicMsg = some "zero squawk"
    ∧ ¬((eramC6.SortMessages 0).panicMsg = none) := by
  refine ⟨by decide, by decide⟩

/-- C6 (amended): outside the fatal cases — a Plan message with zero
assigned squawk, a RequestFlightPlan message with a short source ID, and
transfer messages dereferencing missing track data — processing degrades
gracefully: a Plan message with a non-zero beacon code never panics even
when its coordination fix cannot be resolved (the failure is logged and
the plan stays enroute-resident), and whenever a drain completes without
panic, every message of the batch was processed, so a logged failure on
one message never blocks its siblings. -/
theorem eramGracefulDegradation_spec :
    (∀ (comp : ERAMComputer) (simTime : Int) (msg : FlightPlanMessage),
        msg.messageType = MessageType.Plan → msg.bcn ≠ 0 →
        (comp.processMessage simTime msg).panicMsg = none)
    ∧ (∀ (comp : ERAMComputer) (simTime : Int),
        (comp.SortMessages simTime).panicMsg = none →
        (comp.SortMessages simTime).processed = comp.receivedMessages) := by
  constructor
  · intro comp simTime msg hmt hbcn
    have hsq : msg.FlightPlan.base.assignedSquawk = msg.bcn := rfl
    simp only [ERAMComputer.processMessage, hmt, eramPlanRoute, eramProcessPlan, hsq]
    rw [if_neg hbcn]
    split
    · split
      · rfl
      · split
        · split
          · rfl
          · rfl
        · rfl
    · split
      · split
        · rfl
        · rfl
      · rfl
  · intro comp simTime h
    unfold ERAMComputer.SortMessages at h ⊢
    cases hp : (eramSortGo comp simTime comp.receivedMessages).panicMsg with
    | some p =>
        simp only [hp] at h
        exact absurd h (by simp)
    | none =>
        simp only [hp]
        exact eramSortGo_processed_of_no_panic simTime comp.receivedMessages comp hp

/-- Witness for the amended C6: a Plan message with non-zero beacon and
an unresolvable coordination fix is handled without panic, and the
corresponding single-message drain processes the whole batch. -/
theorem eramGracefulDegradation_witness :
    msgC6w.messageType = MessageType.Plan ∧ msgC6w.bcn ≠ 0
    ∧ (eramC4.processMessage 0 msgC6w).panicMsg = none
    ∧ (eramC4.SortMessages 0).processed = eramC4.receivedMessages :=
  ⟨rfl, by decide, eramGracefulDegradation_spec.1 eramC4 0 msgC6w rfl (by decide),
   eramGracefulDegradation_spec.2 eramC4 0 (by decide)⟩

/-- C7: for a plan with coordination time T, sendPlanIfReady transmits
nothing while simTime + TransmitFPMessageTime is before T; across any
sequence of ticks the plan is transmitted at most once, because a
transmission appends the resolved destination facility to the plan's
distribution record and a plan whose record already contains that
facility is never re-sent. -/
theorem eramLookahead_spec (comp : ERAMComputer) (tracon : String)
    (fp : STARSFlightPlan) (t : Int) (ts : List Int)
    (hearly : t + TransmitFPMessageTime < fp.coordinationTime) :
    comp.sendPlanIfReady tracon t fp = (fp, [])
    ∧ (comp.runLookaheadTicks tracon ts fp).2.length ≤ 1
    ∧ (∀ af, resolveFix comp fp = some af →
        (af.toFacility ∈ fp.containedFacilities →
          ∀ u, comp.sendPlanIfReady tracon u fp = (fp, []))
        ∧ (∀ u, ¬(u + TransmitFPMessageTime < fp.coordinationTime) →
            af.toFacility ∉ fp.containedFacilities →
            (comp.sendPlanIfReady tracon u fp).1.containedFacilities =
              fp.containedFacilities ++ [af.toFacility])) := by
  refine ⟨?_, runLookaheadTicks_sends_le_one comp tracon ts fp, ?_⟩
  · unfold ERAMComputer.sendPlanIfReady
    rw [if_pos hearly]
  · intro af hres
    constructor
    · intro hmem u
      apply sendPlanIfReady_blocked
      intro af2 h2
      rw [hres] at h2
      cases h2
      exact hmem
    · intro u hu hmem
      unfold resolveFix at hres
      unfold ERAMComputer.sendPlanIfReady
      rw [if_neg hu]
      cases hl : List.lookup fp.coordinationFix comp.adaptation with
      | none => rw [hl] at hres; exact absurd hres (by simp)
      | some coordFix =>
          rw [hl] at hres
          have hres2 : coordFix fp.altitude = some af := hres
          simp only [hres2]
          rw [if_neg hmem]
          unfold ERAMComputer.SendFlightPlan
          simp only [hl, hres2]

/-- Witness for C7 at tick time 0 against a plan whose coordination time
is far beyond the lookahead window. -/
theorem eramLookahead_witness :
    ((0 : Int) + TransmitFPMessageTime < fpC7.coordinationTime)
    ∧ eramC7.sendPlanIfReady "A80" 0 fpC7 = (fpC7, [])
    ∧ (eramC7.runLookaheadTicks "A80" [0, 1] fpC7).2.length ≤ 1
    ∧ (∀ af, resolveFix eramC7 fpC7 = some af →
        (af.toFacility ∈ fpC7.containedFacilities →
          ∀ u, eramC7.sendPlanIfReady "A80" u fpC7 = (fpC7, []))
        ∧ (∀ u, ¬(u + TransmitFPMessageTime < fpC7.coordinationTime) →
            af.toFacility ∉ fpC7.containedFacilities →
            (eramC7.sendPlanIfReady "A80" u fpC7).1.containedFacilities =
              fpC7.containedFacilities ++ [af.toFacility])) :=
  ⟨by decide, eramLookahead_spec eramC7 "A80" fpC7 0 [0, 1] (by decide)⟩

/-- C10: when an ERAM computer processes an AcceptRecallTransfer message
whose coordination fix is present in its adaptation, the handler is safe
exactly under the precondition that a TrackInformation entry exists for
the identifier and carries a flight plan: with the precondition the
handler never panics, and without it (no entry, or an entry whose
FlightPlan is nil) the unguarded altitude read dereferences nil. -/
theorem eramAcceptRecallNilGuard_spec (comp : ERAMComputer) (simTime : Int)
    (msg : FlightPlanMessage)
    (hmt : msg.messageType = MessageType.AcceptRecallTransfer)
    (fixes : AdaptationFixes)
    (hfix : List.lookup msg.coordinationFix comp.adaptation = some fixes) :
    (∀ info fpl, comp.trackInformation msg.identifier = some info →
        info.flightPlan = some fpl →
        (comp.processMessage simTime msg).panicMsg = none)
    ∧ (comp.trackInformation msg.identifier = none →
        (comp.processMessage simTime msg).panicMsg = some "nil dereference")
    ∧ (∀ info, comp.trackInformation msg.identifier = some info →
        info.flightPlan = none →
        (comp.processMessage simTime msg).panicMsg = some "nil dereference") := by
  refine ⟨?_, ?_, ?_⟩
  · intro info fpl h1 h2
    simp only [ERAMComputer.processMessage, hmt, eramProcessAcceptRecall, hfix, h1,
      mapUpd_self, h2]
    cases hfa : fixes fpl.altitude with
    | none => simp only [hfa]
    | some adaptationFix =>
        simp only [hfa]
        split <;> rfl
  · intro h1
    simp only [ERAMComputer.processMessage, hmt, eramProcessAcceptRecall, hfix, h1]
  · intro info h1 h2
    simp only [ERAMComputer.processMessage, hmt, eramProcessAcceptRecall, hfix, h1,
      mapUpd_self, h2]

/-- Witness for C10: with a present flight plan the handler completes;
with no track entry it dereferences nil. -/
theorem eramAcceptRecallNilGuard_witness :
    msgC10.messageType = MessageType.AcceptRecallTransfer
    ∧ List.lookup msgC10.coordinationFix eramC10a.adaptation = some fixesC10
    ∧ eramC10a.trackInformation msgC10.identifier = some infoC3
    ∧ infoC3.flightPlan = some fpC2
    ∧ (eramC10a.processMessage 0 msgC10).panicMsg = none
    ∧ eramC10b.trackInformation msgC10.identifier = none
    ∧ (eramC10b.processMessage 0 msgC10).panicMsg = some "nil dereference" :=
  ⟨rfl, rfl, rfl, rfl,
   (eramAcceptRecallNilGuard_spec eramC10a 0 msgC10 rfl fixesC10 rfl).1 infoC3 fpC2 rfl rfl,
   rfl,
   (eramAcceptRecallNilGuard_spec eramC10b 0 msgC10 rfl fixesC10 rfl).2.1 rfl⟩
